import Mathlib

/-
Verification development for the knowledge-assistant repository.

This file gives a shallow embedding of the access-control core of the
repository (src/src/utils.py, src/src/config.py, src/src/rag_processor.py,
src/src/document_updater.py, src/scripts/check_and_trigger_sync.py) and
proves properties of the embedded definitions.

Modelling conventions:
- Python strings are Lean `String`; `str.upper`/`str.lower` are the ASCII
  `Char.toUpper`/`Char.toLower` maps (all tags in play are ASCII).
- Python dicts with string keys are association lists; a dict comprehension
  that may collide on keys is modelled by a lookup that takes the LAST
  binding (later assignments overwrite earlier ones).
- Python sets are lists compared only through membership (the compiled
  filter uses them only via `$in`).
- File mtimes / fingerprints are `Int` (only equality and order matter).
- A Python function that can raise returns `Except PyError`.
-/

namespace KnowledgeAssistant

/-! Tag normalizer, from src/src/utils.py `sanitize_tag` (identical code is
inlined as `RAGService._sanitize_tag` in src/src/rag_processor.py):
remove every character that is not an ASCII letter or digit, then uppercase. -/

/-- ASCII lowercasing, character by character (Python `str.lower` on the
ASCII tags in play). -/
def str_lower (s : String) : String := String.mk (s.data.map Char.toLower)

/-- ASCII uppercasing, character by character (Python `str.upper`). -/
def str_upper (s : String) : String := String.mk (s.data.map Char.toUpper)

/-- `sanitize_tag` from src/src/utils.py: `re.sub(r'[^a-zA-Z0-9]', '', tag).upper()`. -/
def sanitize_tag (tag : String) : String :=
  String.mk ((tag.data.filter (fun c => c.isAlphanum)).map Char.toUpper)

/-- Equality test on `Except` values (Python `==` on the modelled results). -/
instance {ε α : Type} [DecidableEq ε] [DecidableEq α] :
    DecidableEq (Except ε α) := fun x y =>
  match x, y with
  | .error e1, .error e2 =>
    if h : e1 = e2 then isTrue (by rw [h])
    else isFalse (fun hc => h (by injection hc))
  | .error _, .ok _ => isFalse (fun hc => Except.noConfusion hc)
  | .ok _, .error _ => isFalse (fun hc => Except.noConfusion hc)
  | .ok a1, .ok a2 =>
    if h : a1 = a2 then isTrue (by rw [h])
    else isFalse (fun hc => h (by injection hc))

/-! Configuration constants, from src/src/config.py. -/

def DEFAULT_DEPARTMENT_TAG : String := "GENERAL"

def DEFAULT_PROJECT_TAG : String := "GENERAL"

def DEFAULT_HIERARCHY_LEVEL : Int := 0

/-- Default role if no specific role folder found (src/src/config.py line 34). -/
def DEFAULT_ROLE_TAG : String := "MEMBER"

def KNOWN_DEPARTMENT_TAGS : List String :=
  ["HR", "IT", "FINANCE", "LEGAL", "MARKETING", "OPERATIONS", "SALES"]

def ROLE_SPECIFIC_FOLDER_TAGS : List (String × String) :=
  [("lead_docs", "LEAD"), ("admin_files", "ADMIN"),
   ("manager_exclusive", "MANAGER"), ("team_lead_private", "TEAM_LEAD")]

/-- `HIERARCHY_LEVELS_CONFIG` as an ordered association list (Python dicts
iterate in insertion order). -/
def HIERARCHY_LEVELS_CONFIG : List (String × Int) :=
  [("STAFF", 0), ("MEMBER", 0), ("MANAGER", 1), ("SENIOR_MANAGER", 1),
   ("EXECUTIVE", 2), ("DIRECTOR", 2), ("BOARD", 3), ("C_LEVEL", 3)]

/-! The access profile dictionary handed to the filter compiler
(`UserProfile` TypedDict in src/src/config.py). `user_hierarchy_level` is an
`Option Int` so that a dict missing that key can be distinguished (the code
reads it with `profile.get("user_hierarchy_level", -1)`); for the list- and
dict-valued keys a missing key and the default `[]` / `{}` are
indistinguishable to the code, so they are plain lists. -/

structure UserProfile where
  user_hierarchy_level : Option Int
  departments : List String
  projects_membership : List String
  contextual_roles : List (String × List String)
deriving Repr, DecidableEq

/-- Python exception kinds relevant to the embedded code. -/
inductive PyError where
  | attributeError
deriving Repr, DecidableEq

/-! The Pinecone metadata filter expression built by
`RAGService._build_filter_expression` (src/src/rag_processor.py lines
229-287). The built expression only uses binary `$and` / `$or`,
`{field: {"$lte": n}}` and `{field: {"$in": [...]}}` nodes, so the AST has
exactly those four constructors. -/

inductive Fexpr where
  | lteF (field : String) (bound : Int)
  | inF (field : String) (vals : List String)
  | andF (left right : Fexpr)
  | orF (left right : Fexpr)
deriving Repr, DecidableEq

/-! Chunk metadata as stored in the index: the four access-control fields
written by `extract_metadata_from_path` and read by the compiled filter. -/

structure ChunkMeta where
  department_tag : String
  project_tag : String
  hierarchy_level_required : Int
  role_tag_required : String
deriving Repr, DecidableEq

def chunkIntField (c : ChunkMeta) (field : String) : Option Int :=
  if field = "hierarchy_level_required" then some c.hierarchy_level_required
  else none

def chunkStrField (c : ChunkMeta) (field : String) : Option String :=
  if field = "department_tag" then some c.department_tag
  else if field = "project_tag" then some c.project_tag
  else if field = "role_tag_required" then some c.role_tag_required
  else none

/-- Evaluation of a compiled filter against one chunk's metadata (the
semantics the vector index applies: `$lte` is numeric comparison, `$in` is
membership, a reference to a field the chunk does not carry matches
nothing). -/
def evalF : Fexpr → ChunkMeta → Bool
  | .lteF field bound, c =>
    match chunkIntField c field with
    | some v => decide (v ≤ bound)
    | none => false
  | .inF field vals, c =>
    match chunkStrField c field with
    | some s => decide (s ∈ vals)
    | none => false
  | .andF l r, c => evalF l c && evalF r c
  | .orF l r, c => evalF l c || evalF r c

/-- Lookup in a Python dict built by a comprehension whose keys may collide
after sanitization: the LAST binding for a key wins, `.get(k, [])` defaults
to the empty list. -/
def dictGet (m : List (String × List String)) (k : String) : List String :=
  (m.reverse.lookup k).getD []

/-- `sanitized_contextual_roles = {self._sanitize_tag(k): v for k, v in
user_contextual_roles.items()}` — note the VALUES are left unsanitized. -/
def sanitized_contextual_roles (p : UserProfile) : List (String × List String) :=
  p.contextual_roles.map (fun kv => (sanitize_tag kv.1, kv.2))

/-- `all_dept_roles`: roles for the sanitized `DEFAULT_DEPARTMENT_TAG`
context, plus the roles for EVERY department the user belongs to, plus
`DEFAULT_ROLE_TAG`. A Python set; modelled as a concatenation, used only
through membership. -/
def all_dept_roles (p : UserProfile) : List String :=
  dictGet (sanitized_contextual_roles p) (sanitize_tag DEFAULT_DEPARTMENT_TAG)
    ++ (p.departments.map sanitize_tag).flatMap
        (fun dept => dictGet (sanitized_contextual_roles p) dept)
    ++ [DEFAULT_ROLE_TAG]

/-- `all_proj_roles`, symmetric to `all_dept_roles` over the user's project
memberships. -/
def all_proj_roles (p : UserProfile) : List String :=
  dictGet (sanitized_contextual_roles p) (sanitize_tag DEFAULT_PROJECT_TAG)
    ++ (p.projects_membership.map sanitize_tag).flatMap
        (fun proj => dictGet (sanitized_contextual_roles p) proj)
    ++ [DEFAULT_ROLE_TAG]

/-- The filter expression built from a present profile dict: the body of
`_build_filter_expression` after the `profile.get` reads succeed.
`user_level = profile.get("user_hierarchy_level", -1)`. -/
def compile_profile (p : UserProfile) : Fexpr :=
  let user_level := p.user_hierarchy_level.getD (-1)
  let user_depts_sanitized := p.departments.map sanitize_tag
  let user_projs_sanitized := p.projects_membership.map sanitize_tag
  .andF (.lteF "hierarchy_level_required" user_level)
    (.orF
      (.andF
        (.inF "department_tag"
          (user_depts_sanitized ++ [sanitize_tag DEFAULT_DEPARTMENT_TAG]))
        (.inF "role_tag_required" (all_dept_roles p)))
      (.andF
        (.inF "project_tag"
          (user_projs_sanitized ++ [sanitize_tag DEFAULT_PROJECT_TAG]))
        (.inF "role_tag_required" (all_proj_roles p))))

/-- `RAGService._build_filter_expression(profile)`: `get_rag_chain` passes
its `Optional` `user_profile` straight in; on `None` the very first
`profile.get(...)` raises `AttributeError` (`None` has no attribute `get`),
which propagates out of the compiler. -/
def build_filter_expression (profile : Option UserProfile) : Except PyError Fexpr :=
  match profile with
  | none => .error .attributeError
  | some p => .ok (compile_profile p)

/-- The retriever applying the compiled filter to one chunk: the boolean the
index computes for that chunk, or the exception the compiler raised. -/
def run_filter (profile : Option UserProfile) (c : ChunkMeta) : Except PyError Bool :=
  (build_filter_expression profile).map (fun f => evalF f c)

/-! Metadata extraction at ingest, from src/src/document_updater.py.
Chunk access tags come from path-segment naming conventions (there is no
manifest lookup anywhere in the repository): `extract_metadata_from_path`
walks the directory parts of the relative path. -/

/-- Python's substring test `needle in hay`. -/
def contains_substring (hay needle : String) : Bool :=
  (List.range (hay.length + 1)).any
    (fun i => ((hay.data.drop i).take needle.length) == needle.data)

/-- `parse_hierarchy_from_folder_name` (src/src/document_updater.py lines
39-53): the only returning branch fires when the config key and the literal
`_<level>_` both occur in the uppercased segment; the second branch of the
loop only executes `pass`, so everything else yields `None`. -/
def parse_hierarchy_from_folder_name (folder_name_segment : String) : Option Int :=
  if folder_name_segment = "" then none
  else
    let segment_upper := str_upper folder_name_segment
    HIERARCHY_LEVELS_CONFIG.findSome? (fun kl =>
      if contains_substring segment_upper (str_upper kl.1)
          && contains_substring segment_upper ("_" ++ toString kl.2 ++ "_")
      then some kl.2 else none)

/-- Directory-segment names that are never taken as project candidates. -/
def GENERIC_PART_NAMES : List String :=
  ["docs", "files", "general", "confidential", "private", "shared"]

/-- Loop state of `extract_metadata_from_path`: the metadata dict under
construction and the accumulated `project_candidates`. -/
structure ExtractState where
  meta : ChunkMeta
  project_candidates : List String
deriving Repr, DecidableEq

/-- One iteration of the `for part in parts` loop of
`extract_metadata_from_path`: consume the part as a department or role
folder (each only while its field still holds the default), otherwise
possibly raise the hierarchy level and, when the part is not generic, short,
or classified, record it as a project candidate (original spelling, no
sanitization). -/
def processPart (st : ExtractState) (part : String) : ExtractState :=
  let part_lower := str_lower part
  let known_dept_tags_lower := KNOWN_DEPARTMENT_TAGS.map str_lower
  let role_folder_keys_lower := ROLE_SPECIFIC_FOLDER_TAGS.map (fun kv => str_lower kv.1)
  if st.meta.department_tag = DEFAULT_DEPARTMENT_TAG
      && known_dept_tags_lower.contains part_lower then
    let dept := (KNOWN_DEPARTMENT_TAGS.find? (fun t => str_lower t = part_lower)).getD
      st.meta.department_tag
    { st with meta := { st.meta with department_tag := dept } }
  else if st.meta.role_tag_required = DEFAULT_ROLE_TAG
      && role_folder_keys_lower.contains part_lower then
    let role := ((ROLE_SPECIFIC_FOLDER_TAGS.map (fun kv => (str_lower kv.1, kv.2))).lookup
      part_lower).getD st.meta.role_tag_required
    { st with meta := { st.meta with role_tag_required := role } }
  else
    let parsed_hierarchy := parse_hierarchy_from_folder_name part
    let st1 :=
      match parsed_hierarchy with
      | some lvl =>
        if st.meta.hierarchy_level_required = DEFAULT_HIERARCHY_LEVEL
            || st.meta.hierarchy_level_required < lvl then
          { st with meta := { st.meta with hierarchy_level_required := lvl } }
        else st
      | none => st
    if !GENERIC_PART_NAMES.contains part_lower && part.length > 2
        && !(known_dept_tags_lower.contains part_lower
             || role_folder_keys_lower.contains part_lower
             || parsed_hierarchy.isSome) then
      { st1 with project_candidates := st1.project_candidates ++ [part] }
    else st1

/-- `extract_metadata_from_path` over the directory parts of the relative
path (`Path(relative_path).parts[:-1]`): fold the loop body over the parts,
then promote the first project candidate if the project tag is still the
default, then clear the project tag if it equals a non-default department
tag. -/
def extract_metadata_from_parts (parts : List String) : ChunkMeta :=
  let st := parts.foldl processPart
    ⟨⟨DEFAULT_DEPARTMENT_TAG, DEFAULT_PROJECT_TAG,
      DEFAULT_HIERARCHY_LEVEL, DEFAULT_ROLE_TAG⟩, []⟩
  let meta1 :=
    match st.project_candidates with
    | [] => st.meta
    | cand :: _ =>
      if st.meta.project_tag = DEFAULT_PROJECT_TAG then
        { st.meta with project_tag := cand }
      else st.meta
  if meta1.department_tag ≠ DEFAULT_DEPARTMENT_TAG
      ∧ meta1.department_tag = meta1.project_tag then
    { meta1 with project_tag := DEFAULT_PROJECT_TAG }
  else meta1

/-- Split a character list at `/` separators (the segments of a POSIX
relative path, as `Path(relative_path).parts` yields them for the clean
relative keys produced by the scanner). -/
def splitSlash : List Char → List Char → List String
  | [], acc => [String.mk acc.reverse]
  | c :: cs, acc =>
    if c = '/' then String.mk acc.reverse :: splitSlash cs []
    else splitSlash cs (c :: acc)

/-- `extract_metadata_from_path(relative_path)` for a POSIX relative path:
the loop runs over `Path(relative_path).parts[:-1]`, the directory parts. -/
def extract_metadata_from_path (relative_path : String) : ChunkMeta :=
  extract_metadata_from_parts ((splitSlash relative_path.data []).dropLast)

/-! Sync reconciler, from src/src/document_updater.py. States map document
keys to mtimes (floats in the source, `Int` here: only order and equality
are used). -/

/-- The deletion `process_deletions` issues (lines 318-337): the set
difference of the key sets; `none` when the function returns early having
issued no delete, otherwise the keys whose chunks one
`source IN [...]` delete expression targets. -/
def process_deletions_targets (old_state new_state : List (String × Int)) :
    Option (List String) :=
  let deleted_files_paths :=
    (old_state.map Prod.fst).filter
      (fun k => !(new_state.map Prod.fst).contains k)
  if deleted_files_paths.isEmpty then none else some deleted_files_paths

/-- `find_new_or_updated_files` (lines 340-346): keys of the current scan
that are absent from the old state or have a strictly larger mtime. -/
def find_new_or_updated_files (old_state new_state : List (String × Int)) :
    List String :=
  (new_state.filter (fun kv =>
    match old_state.lookup kv.1 with
    | none => true
    | some old_mtime => decide (old_mtime < kv.2))).map Prod.fst

/-- Observable outcome of one `synchronize_documents` run. -/
structure SyncOutcome where
  deletions_issued : Option (List String)
  new_or_updated : List String
  docs_indexed : List String
  saved_state : List (String × Int)
deriving Repr

/-- Steps 3-6 of `synchronize_documents` (lines 252-272) for a run in which
no exception escapes to the outer `try`: deletions are diffed and issued,
new-or-updated files are processed (`load_ok doc = false` models
`load_and_split_document` returning `[]` for a document that fails to load
or split — the document contributes no chunks but the run continues), and
`save_sync_state(current_docs_state)` persists the FULL scanned state
wholesale, failed documents included. Failures inside `process_deletions`
and `process_additions_or_updates` are caught and logged inside those
functions, so they do not prevent the final state write; only an exception
at or before the scan aborts the run with no write. -/
def synchronize_documents (last_state current_state : List (String × Int))
    (load_ok : String → Bool) : SyncOutcome :=
  { deletions_issued := process_deletions_targets last_state current_state
  , new_or_updated := find_new_or_updated_files last_state current_state
  , docs_indexed := (find_new_or_updated_files last_state current_state).filter load_ok
  , saved_state := current_state }

/-! The serverless sync trigger, from
src/scripts/check_and_trigger_sync.py `check_for_changes_and_trigger_sync`.
States map S3 keys to etag strings. -/

inductive TriggerOutcome where
  | abortedEmptyScan
  | noChanges
  | triggered
deriving Repr, DecidableEq

/-- `check_for_changes_and_trigger_sync` (lines 64-103): if the scan came
back empty while a previous sync state exists, abort without triggering a
sync (`"Aborting to prevent accidental deletion."`); otherwise diff the key
sets and etags and trigger the sync webhook exactly when something
changed. -/
def check_for_changes_and_trigger_sync
    (current_s3_state last_sync_state : List (String × String)) : TriggerOutcome :=
  if current_s3_state.isEmpty && !last_sync_state.isEmpty then
    .abortedEmptyScan
  else
    let last_keys := last_sync_state.map Prod.fst
    let current_keys := current_s3_state.map Prod.fst
    let deleted_keys := last_keys.filter (fun k => !current_keys.contains k)
    let new_keys := current_keys.filter (fun k => !last_keys.contains k)
    let updated_keys := current_keys.filter (fun k =>
      last_keys.contains k
        && decide (current_s3_state.lookup k ≠ last_sync_state.lookup k))
    if deleted_keys.isEmpty && new_keys.isEmpty && updated_keys.isEmpty then
      .noChanges
    else
      .triggered

/-! Concrete inputs used by the example-level theorems below. -/

/-- The profile dictionary `{}`: every key missing; the compiler's
`profile.get` reads all fall back to their defaults. -/
def empty_profile : UserProfile := ⟨none, [], [], []⟩

def c1_chunk : ChunkMeta := ⟨"GENERAL", "GENERAL", 0, "MEMBER"⟩

def c2_last_state : List (String × String) := [("docs/a.txt", "etag-1")]

def c4_profile : UserProfile := ⟨some 0, ["HR", "IT"], [], [("HR", ["LEAD"])]⟩

def c4_chunk : ChunkMeta := ⟨"IT", "PROJECTX", 0, "LEAD"⟩

def c5_profile : UserProfile := ⟨some 1, ["IT"], [], []⟩

def c5_chunk : ChunkMeta := ⟨"IT", "GENERAL", 1, "MEMBER"⟩

def c6_profile : UserProfile := ⟨some 5, ["IT"], [], []⟩

def c6_chunk_general_role : ChunkMeta := ⟨"IT", "GENERAL", 0, "GENERAL"⟩

def c6_chunk_member_role : ChunkMeta := ⟨"IT", "GENERAL", 0, "MEMBER"⟩

def c9_state : List (String × Int) := [("docs/a.txt", 1), ("docs/b.txt", 2)]

def c10_profile : UserProfile := ⟨none, ["IT"], ["PROJECTX"], [("IT", ["LEAD"])]⟩

def c10_chunk : ChunkMeta := ⟨"IT", "GENERAL", 0, "MEMBER"⟩

/-- The department-branch role requirement as the specification words it
(spec §4.3): the chunk's `role_tag_required` is `"GENERAL"` or is in the
union of the roles the caller holds for `"GENERAL"` and for THAT CHUNK'S OWN
department. Stated from the spec's words, for comparison with the code's
`all_dept_roles` union. -/
def spec_role_ok_for_department (p : UserProfile) (c : ChunkMeta) : Bool :=
  c.role_tag_required = "GENERAL"
    || decide (c.role_tag_required ∈
        dictGet (sanitized_contextual_roles p) "GENERAL"
          ++ dictGet (sanitized_contextual_roles p) c.department_tag)

/-! Helper lemmas. -/

theorem chunkIntField_hier (c : ChunkMeta) :
    chunkIntField c "hierarchy_level_required" = some c.hierarchy_level_required := rfl

theorem chunkStrField_dept (c : ChunkMeta) :
    chunkStrField c "department_tag" = some c.department_tag := rfl

theorem chunkStrField_proj (c : ChunkMeta) :
    chunkStrField c "project_tag" = some c.project_tag := rfl

theorem chunkStrField_role (c : ChunkMeta) :
    chunkStrField c "role_tag_required" = some c.role_tag_required := rfl

theorem lookup_self_of_nodup {s : List (String × Int)}
    (hnd : (s.map Prod.fst).Nodup) {k : String} {v : Int}
    (hm : (k, v) ∈ s) : s.lookup k = some v := by
  induction s with
  | nil => cases hm
  | cons hd tl ih =>
    obtain ⟨k1, v1⟩ := hd
    rw [List.map_cons, List.nodup_cons] at hnd
    rcases List.mem_cons.mp hm with heq | hmem
    · injection heq with h1 h2
      subst h1; subst h2
      simp [List.lookup]
    · have hne : (k == k1) = false := by
        apply beq_eq_false_iff_ne.mpr
        intro he
        apply hnd.1
        rw [← he]
        exact List.mem_map.mpr ⟨(k, v), hmem, rfl⟩
      rw [show List.lookup k ((k1, v1) :: tl) = List.lookup k tl from by
        simp [List.lookup, hne]]
      exact ih hnd.2 hmem

theorem find_new_or_updated_self (s : List (String × Int))
    (hnd : (s.map Prod.fst).Nodup) : find_new_or_updated_files s s = [] := by
  unfold find_new_or_updated_files
  rw [List.map_eq_nil_iff]
  rw [List.filter_eq_nil_iff]
  rintro ⟨k, v⟩ hm
  have hl : s.lookup k = some v := lookup_self_of_nodup hnd hm
  simp [hl]

theorem process_deletions_self (s : List (String × Int)) :
    process_deletions_targets s s = none := by
  unfold process_deletions_targets
  have h : ((s.map Prod.fst).filter
      fun k => !(s.map Prod.fst).contains k) = [] := by
    apply List.filter_eq_nil_iff.mpr
    intro k hk
    simp [hk]
  simp [h]

theorem eval_compile_hier_le (p : UserProfile) (c : ChunkMeta)
    (h : evalF (compile_profile p) c = true) :
    c.hierarchy_level_required ≤ p.user_hierarchy_level.getD (-1) := by
  simp only [compile_profile, evalF, chunkIntField_hier] at h
  rw [Bool.and_eq_true] at h
  exact of_decide_eq_true h.1

/-! Claim theorems. -/

/-- C1 (counterexample): the claim says an absent access profile compiles to
a match-nothing predicate without raising; in the code, `None` reaches
`profile.get` and an `AttributeError` escapes the compiler instead of any
predicate being returned. -/
theorem C1_counterexample :
    build_filter_expression none = .error .attributeError := rfl

/-- C1 (amended): for an absent access profile (`None`) the Filter Compiler
raises `AttributeError` past its boundary and returns no predicate at all;
the fail-closed match-nothing behavior holds instead for a present but empty
profile dictionary, whose compiled predicate (hierarchy bound `-1`) rejects
every chunk with a nonnegative `hierarchy_level_required`. -/
theorem C1_absent_profile_behavior (c : ChunkMeta) (f : Fexpr)
    (hb : build_filter_expression (some empty_profile) = .ok f)
    (hc : 0 ≤ c.hierarchy_level_required) :
    evalF f c = false ∧ ∀ g : Fexpr, build_filter_expression none ≠ .ok g := by
  have hf : compile_profile empty_profile = f := Except.ok.inj hb
  subst hf
  constructor
  · cases h : evalF (compile_profile empty_profile) c with
    | false => rfl
    | true =>
      exfalso
      have hle := eval_compile_hier_le empty_profile c h
      simp [empty_profile] at hle
      omega
  · intro g hg
    simp [build_filter_expression] at hg

/-- Witness for C1's amended theorem at a concrete all-default chunk. -/
theorem C1_witness :
    evalF (compile_profile empty_profile) c1_chunk = false
    ∧ ∀ g : Fexpr, build_filter_expression none ≠ .ok g :=
  C1_absent_profile_behavior c1_chunk (compile_profile empty_profile) rfl (by decide)

/-- C2 (counterexample): a reconciler run whose scan returns the empty map
against the non-empty prior state `{"docs/a.txt": 1}` DOES issue a deletion
targeting every previously known document — `process_deletions` has no
empty-scan guard. -/
theorem C2_counterexample :
    (synchronize_documents [("docs/a.txt", 1)] [] (fun _ => true)).deletions_issued
      = some ["docs/a.txt"] := by decide

/-- C2 (amended): the empty-scan-versus-non-empty-state guard lives in the
serverless sync trigger, not in the reconciler: for every non-empty prior
sync state, `check_for_changes_and_trigger_sync` with an empty scan aborts
without triggering a sync; the reconciler itself, run directly on that
input, deletes all previously known documents. -/
theorem C2_guard_at_trigger_layer (last : List (String × String))
    (h : last ≠ []) :
    check_for_changes_and_trigger_sync [] last = .abortedEmptyScan := by
  unfold check_for_changes_and_trigger_sync
  have hl : last.isEmpty = false := by
    cases last with
    | nil => exact absurd rfl h
    | cons a l => rfl
  simp [hl]

/-- Witness for C2's amended theorem at a concrete one-entry prior state. -/
theorem C2_witness :
    check_for_changes_and_trigger_sync [] c2_last_state = .abortedEmptyScan :=
  C2_guard_at_trigger_layer c2_last_state (by decide)

/-- C3 (code bug): tags are NOT canonicalized before storage or comparison.
`extract_metadata_from_path` stores the raw directory segment
`"Project-Alpha"` as a chunk's `project_tag` and the configured
`"TEAM_LEAD"` (with an underscore) as `role_tag_required`, and the filter
compiler's `all_dept_roles` passes contextual role values such as
`"lead-x"` into the compiled predicate unsanitized — all three fail
`sanitize_tag`'s canonical form, although `_build_filter_expression`'s own
comment assumes index tags were already sanitized during ingest. -/
theorem C3_tags_not_canonicalized :
    (extract_metadata_from_path "hr/Project-Alpha/file.txt").project_tag
        = "Project-Alpha"
    ∧ sanitize_tag "Project-Alpha" ≠ "Project-Alpha"
    ∧ (extract_metadata_from_path "it/team_lead_private/file.txt").role_tag_required
        = "TEAM_LEAD"
    ∧ sanitize_tag "TEAM_LEAD" ≠ "TEAM_LEAD"
    ∧ "lead-x" ∈ all_dept_roles ⟨some 0, ["IT"], [], [("IT", ["lead-x"])]⟩
    ∧ sanitize_tag "lead-x" ≠ "lead-x" := by decide

/-- C4 (counterexample): the caller belongs to HR and IT and holds role
`LEAD` only for the HR context; a chunk tagged `department_tag="IT"`,
`role_tag_required="LEAD"` is accepted by the compiled predicate (and not
via the project branch: its project tag is in no project grant), although
the spec's per-context rule — role `"GENERAL"` or a role held for
`"GENERAL"` or for the chunk's OWN department — rejects it. -/
theorem C4_counterexample :
    run_filter (some c4_profile) c4_chunk = .ok true
    ∧ spec_role_ok_for_department c4_profile c4_chunk = false
    ∧ c4_chunk.project_tag ∉
        c4_profile.projects_membership.map sanitize_tag
          ++ [sanitize_tag DEFAULT_PROJECT_TAG] := by decide

/-- C4 (amended): the department branch of the compiled predicate pools
roles across ALL the caller's departments: whenever the hierarchy gate
passes, the chunk's department tag is one of the caller's sanitized
departments, and its required role is among the roles the caller holds for
ANY of their departments (not necessarily the chunk's own), the chunk is
accepted; the always-granted baseline role is `DEFAULT_ROLE_TAG`
(`"MEMBER"`), not `"GENERAL"`. Symmetrically for the project branch. -/
theorem C4_role_union_across_departments (p : UserProfile) (c : ChunkMeta)
    (f : Fexpr) (d : String)
    (hb : build_filter_expression (some p) = .ok f)
    (hh : c.hierarchy_level_required ≤ p.user_hierarchy_level.getD (-1))
    (hdept : c.department_tag ∈ p.departments.map sanitize_tag)
    (hd : d ∈ p.departments.map sanitize_tag)
    (hrole : c.role_tag_required ∈ dictGet (sanitized_contextual_roles p) d) :
    evalF f c = true := by
  have hf : compile_profile p = f := Except.ok.inj hb
  subst hf
  simp only [compile_profile, evalF, chunkIntField_hier, chunkStrField_dept,
    chunkStrField_role, chunkStrField_proj]
  rw [Bool.and_eq_true]
  refine ⟨decide_eq_true hh, ?_⟩
  rw [Bool.or_eq_true]
  refine Or.inl ?_
  rw [Bool.and_eq_true]
  refine ⟨decide_eq_true ?_, decide_eq_true ?_⟩
  · exact List.mem_append_left _ hdept
  · unfold all_dept_roles
    refine List.mem_append_left _ (List.mem_append_right _ ?_)
    exact List.mem_flatMap.mpr ⟨d, hd, hrole⟩

/-- Witness for C4's amended theorem: the counterexample's caller and chunk,
with the role granted in the HR context accepted for the IT-tagged chunk. -/
theorem C4_witness : evalF (compile_profile c4_profile) c4_chunk = true :=
  C4_role_union_across_departments c4_profile c4_chunk
    (compile_profile c4_profile) "HR" rfl (by decide) (by decide) (by decide)
    (by decide)

/-- C5 (confirmed): the compiled predicate is a conjunction whose first
conjunct is the hierarchy gate, so any chunk it accepts satisfies
`hierarchy_level_required <= profile.hierarchy_level`, regardless of every
department, project, or role grant. -/
theorem C5_hierarchy_gate (p : UserProfile) (lvl : Int) (c : ChunkMeta)
    (f : Fexpr)
    (hlvl : p.user_hierarchy_level = some lvl)
    (hb : build_filter_expression (some p) = .ok f)
    (he : evalF f c = true) :
    c.hierarchy_level_required ≤ lvl := by
  have hf : compile_profile p = f := Except.ok.inj hb
  subst hf
  have h := eval_compile_hier_le p c he
  rw [hlvl] at h
  simpa using h

/-- Witness for C5 at a concrete accepted chunk. -/
theorem C5_witness : c5_chunk.hierarchy_level_required ≤ 1 :=
  C5_hierarchy_gate c5_profile 1 c5_chunk (compile_profile c5_profile) rfl rfl
    (by decide)

/-- C6 (counterexample): the chunk of the claim — `department_tag="IT"`,
`project_tag="GENERAL"`, `role_tag_required="GENERAL"`, level 0 — is NOT
matched by the predicate compiled from a profile with `departments={"IT"}`,
ample hierarchy level and no project or role grants: the compiler's
always-granted role set is `{"MEMBER"}`, which does not contain
`"GENERAL"`. -/
theorem C6_counterexample :
    run_filter (some c6_profile) c6_chunk_general_role = .ok false := by decide

/-- C6 (amended): the same chunk with `role_tag_required="MEMBER"` — the
repository's actual default role tag (`DEFAULT_ROLE_TAG`) — is matched by
the predicate compiled from a profile with `departments={"IT"}`, sufficient
hierarchy level and no project memberships or contextual roles at all. -/
theorem C6_default_role_chunk_matched :
    run_filter (some c6_profile) c6_chunk_member_role = .ok true := by decide

/-- C7 (counterexample): for the document `hr/payroll/file.txt` the
resolved metadata does not keep the default project tag — the unclassified
intermediate directory is promoted to `project_tag`. -/
theorem C7_counterexample :
    (extract_metadata_from_path "hr/payroll/file.txt").project_tag
      ≠ "GENERAL" := by decide

/-- C7 (amended): metadata resolution is path-convention based (there is no
manifest mechanism in the code): `hr/payroll/file.txt` resolves to
`department_tag="HR"` from the known-department segment, but the
intermediate directory `payroll` IS inferred as the project tag (stored
raw), and the default role tag is `"MEMBER"`, so the result is
`{department_tag:"HR", project_tag:"payroll", hierarchy_level_required:0,
role_tag_required:"MEMBER"}`. -/
theorem C7_path_conventions_resolution :
    extract_metadata_from_path "hr/payroll/file.txt"
      = ⟨"HR", "payroll", 0, "MEMBER"⟩ := by decide

/-- C8 (counterexample): a run in which the only scanned document
`docs/b.txt` fails to load (it contributes no chunks and is never indexed)
still persists the full scanned state INCLUDING that document, so it will
not be re-detected or retried on the next run. -/
theorem C8_counterexample :
    (synchronize_documents [] [("docs/b.txt", 5)] (fun _ => false)).docs_indexed
        = []
    ∧ (synchronize_documents [] [("docs/b.txt", 5)] (fun _ => false)).saved_state
        = [("docs/b.txt", 5)] := by decide

/-- C8 (amended): whenever no exception escapes the scan/setup steps,
`synchronize_documents` persists the scanned snapshot wholesale — documents
whose load or indexing failed included, since per-document and store-level
failures are caught inside `process_deletions` /
`process_additions_or_updates` — and consequently an unchanged store on the
next run yields an empty diff, so failed documents are NOT retried; only a
failure at or before the scan leaves the prior SyncState untouched. -/
theorem C8_state_saved_wholesale (last current : List (String × Int))
    (load_ok : String → Bool)
    (hnd : (current.map Prod.fst).Nodup) :
    (synchronize_documents last current load_ok).saved_state = current
    ∧ find_new_or_updated_files
        (synchronize_documents last current load_ok).saved_state current = [] := by
  refine ⟨rfl, ?_⟩
  exact find_new_or_updated_self current hnd

/-- Witness for C8's amended theorem: the counterexample's failing run. -/
theorem C8_witness :
    (synchronize_documents [] [("docs/b.txt", 5)] (fun _ => false)).saved_state
        = [("docs/b.txt", 5)]
    ∧ find_new_or_updated_files
        (synchronize_documents [] [("docs/b.txt", 5)]
          (fun _ => false)).saved_state [("docs/b.txt", 5)] = [] :=
  C8_state_saved_wholesale [] [("docs/b.txt", 5)] (fun _ => false) (by decide)

/-- C9 (confirmed): against an unchanged document store — the scan returns
exactly the committed state — the reconciler's diff is empty: no deletion is
issued (`process_deletions` returns before any index call) and no document
is selected for re-indexing, so the second run performs zero index delete or
upsert operations. -/
theorem C9_second_run_empty_diff (s : List (String × Int))
    (hnd : (s.map Prod.fst).Nodup) :
    process_deletions_targets s s = none
    ∧ find_new_or_updated_files s s = [] :=
  ⟨process_deletions_self s, find_new_or_updated_self s hnd⟩

/-- Witness for C9 at a concrete two-document state. -/
theorem C9_witness :
    process_deletions_targets c9_state c9_state = none
    ∧ find_new_or_updated_files c9_state c9_state = [] :=
  C9_second_run_empty_diff c9_state (by decide)

/-- C10 (confirmed): a profile dictionary with no hierarchy-level key is
read as level `-1` (`profile.get("user_hierarchy_level", -1)`), so the
compiled predicate's hierarchy gate `$lte -1` rejects every chunk whose
`hierarchy_level_required` is zero or greater, regardless of any department,
project, or role grant in the profile. -/
theorem C10_missing_level_fails_closed (p : UserProfile) (c : ChunkMeta)
    (f : Fexpr)
    (hnone : p.user_hierarchy_level = none)
    (hb : build_filter_expression (some p) = .ok f)
    (hc : 0 ≤ c.hierarchy_level_required) :
    evalF f c = false := by
  have hf : compile_profile p = f := Except.ok.inj hb
  subst hf
  cases h : evalF (compile_profile p) c with
  | false => rfl
  | true =>
    exfalso
    have hle := eval_compile_hier_le p c h
    rw [hnone] at hle
    simp [Option.getD] at hle
    omega

/-- Witness for C10: a profile with department, project and role grants but
no hierarchy level rejects an all-default-requirement chunk. -/
theorem C10_witness : evalF (compile_profile c10_profile) c10_chunk = false :=
  C10_missing_level_fails_closed c10_profile c10_chunk
    (compile_profile c10_profile) rfl rfl (by decide)

end KnowledgeAssistant
